import Mathlib

/-!
Shallow embedding of the stock-bot daily ingestion pipeline (src/bot.py).

Modelling conventions:
* Python floats are modelled as exact rationals (ℚ).  Every concrete input used
  below was checked to evaluate identically under IEEE double arithmetic
  (in particular `250 * 1.382` is exactly `345.5` as a double, so the rational
  model agrees with the float computation at the spec's sample quote).
* Python's `round` (banker's rounding, round-half-to-even) is `pyRound`.
* HTML tables parsed by `pandas.read_html` are modelled as lists of rows of
  string cells; HTTP outcomes carry a transport-ok flag, a status code and,
  for the quote endpoint, the response content length.
* Any Python exception caught by a `try`/`except` block in the source is
  modelled by the same fallback value the handler produces (`None`, `(0,0)`
  or `0`), using `Option`-valued cell access for index errors.
* String scrutiny is done on character lists with structural recursion so that
  concrete instances are kernel-decidable.
-/

/-- Boolean test that the first character list is a prefix of the second
(helper for substring search, mirroring Python's `in` on strings). -/
def startsWithL : List Char → List Char → Bool
  | [], _ => true
  | _ :: _, [] => false
  | a :: as, b :: bs => a == b && startsWithL as bs

/-- Boolean substring search on character lists. -/
def hasSubL (needle : List Char) : List Char → Bool
  | [] => needle.isEmpty
  | b :: bs => startsWithL needle (b :: bs) || hasSubL needle bs

/-- Python's `needle in hay` substring test on strings. -/
def hasSub (needle hay : String) : Bool := hasSubL needle.data hay.data

/-- Python's `'-' in s` test used by src/bot.py line 77 for placeholder cells. -/
def hasDash (s : String) : Bool := hasSub "-" s

/-- Python's `s.replace(',', '')` (src/bot.py line 41). -/
def stripCommas (s : String) : String := String.mk (s.data.filter (fun c => c ≠ ','))

/-- Python's `s.strip()` on a character list. -/
def trimL (l : List Char) : List Char :=
  ((l.dropWhile Char.isWhitespace).reverse.dropWhile Char.isWhitespace).reverse

/-- Splitting a character list at `.` separators (for decimal literals). -/
def splitDot : List Char → List (List Char)
  | [] => [[]]
  | c :: cs =>
    let r := splitDot cs
    if c = '.' then [] :: r
    else
      match r with
      | [] => [[c]]
      | h :: t => (c :: h) :: t

/-- Sign, integer digits and fraction digits of a parsed decimal literal. -/
structure ParsedNum where
  neg : Bool
  ip : List Char
  fp : List Char
deriving DecidableEq

/-- Lexing part of Python's `float(s)`: accepts optional surrounding
whitespace, an optional sign and a decimal literal `ddd`, `ddd.`, `.ddd` or
`ddd.ddd`; `none` where `float` raises `ValueError`.  (Exponent, `inf` and
`nan` forms never produced by the modelled endpoints are left out of the
modelled grammar.) -/
def parseParts? (l : List Char) : Option ParsedNum :=
  let t := trimL l
  let (neg, body) :=
    match t with
    | '-' :: rest => (true, rest)
    | '+' :: rest => (false, rest)
    | cs => (false, cs)
  match splitDot body with
  | [a] => if a ≠ [] ∧ a.all Char.isDigit then some ⟨neg, a, []⟩ else none
  | [a, b] =>
    if (a ++ b) ≠ [] ∧ (a ++ b).all Char.isDigit then some ⟨neg, a, b⟩ else none
  | _ => none

/-- Numeric value of a digit list (most significant first). -/
def digitsVal (l : List Char) : ℕ := l.foldl (fun a c => a * 10 + (c.toNat - 48)) 0

/-- Rational value of a parsed decimal literal. -/
def partsVal (p : ParsedNum) : ℚ :=
  let m : ℚ := (digitsVal p.ip : ℚ) + (digitsVal p.fp : ℚ) / (10 : ℚ) ^ p.fp.length
  if p.neg then -m else m

/-- Python's `float(s)` as an exact rational, `none` on `ValueError`. -/
def parseFloat? (s : String) : Option ℚ := (parseParts? s.data).map partsVal

/-- Embedding of `clean_number` (src/bot.py lines 39-43): strip thousands
separators and whitespace, parse as a float, and fall back to `0.0` on any
parse failure. -/
def clean_number (s : String) : ℚ := (parseFloat? (stripCommas s)).getD 0

/-- Python's built-in `round(x)`: nearest integer, ties to the even neighbour. -/
def pyRound (q : ℚ) : ℤ :=
  if q - ⌊q⌋ < 1 / 2 then ⌊q⌋
  else if 1 / 2 < q - ⌊q⌋ then ⌊q⌋ + 1
  else if ⌊q⌋ % 2 = 0 then ⌊q⌋ else ⌊q⌋ + 1

/-- Python's `round(x, 1)`: round to one decimal digit, ties to even. -/
def pyRound1 (q : ℚ) : ℚ := (pyRound (q * 10) : ℚ) / 10

/-- The `mid_pass` computation of src/bot.py lines 87 and 92. -/
def mid_pass_calc (high_p low_p : ℚ) : ℤ := pyRound ((high_p + low_p) / 2)

/-- The `upper_pass` computation of src/bot.py lines 88 and 93. -/
def upper_pass_calc (high_p low_p : ℚ) : ℤ :=
  pyRound (low_p + (high_p - low_p) * (1.382 : ℚ))

/-- The `lower_pass` computation of src/bot.py lines 89 and 94. -/
def lower_pass_calc (high_p low_p : ℚ) : ℤ :=
  pyRound (high_p - (high_p - low_p) * (1.382 : ℚ))

/-- The per-contract cost computation of src/bot.py lines 167-173: guarded by
`vol > 0`, otherwise the cost keeps its initial value `0`. -/
def costOf (vol amt : ℚ) : ℤ :=
  if 0 < vol then pyRound (amt * 1000 / vol / 200) else 0

/-- Python's `str(v).strip()` on a string. -/
def trimS (s : String) : String := String.mk (trimL s.data)

/-- The quote tuple plus derived bands kept in `ohlc` (src/bot.py lines 81-97). -/
structure OhlcData where
  open_p : ℚ
  high_p : ℚ
  low_p : ℚ
  close_p : ℚ
  upper_pass : ℤ
  mid_pass : ℤ
  lower_pass : ℤ
deriving DecidableEq

/-- One network outcome of the quote endpoint: `ok := false` models a
transport or parse exception (src/bot.py lines 105-107), otherwise the HTTP
status, content length and the rows of `dfs[0]` as strings are given. -/
structure QuoteResp where
  ok : Bool
  status : ℕ
  contentLen : ℕ
  table : List (List String)
deriving DecidableEq

/-- The after-hours row mask of src/bot.py line 72: a row is masked when any
cell's string form contains the after-hours label. -/
def rowHasAfterHours (row : List String) : Bool := row.any (fun c => hasSub "盤後" c)

/-- The row the fetcher settles on: the first row surviving the mask
(`target.iloc[0]`, src/bot.py lines 73-76). -/
def selectRow (r : QuoteResp) : Option (List String) :=
  (r.table.filter (fun row => ! rowHasAfterHours row)).head?

/-- Embedding of the quote branch of `fetch_data_by_date`
(src/bot.py lines 58-109): transport errors, non-200 status or short content,
an empty filtered table, a missing cell (a raised `KeyError` lands in the
handler) and a dash placeholder in the open or close cell all yield `None`;
otherwise the four prices are cleaned and the three bands derived. -/
def processQuote (r : QuoteResp) : Option OhlcData :=
  if r.ok = false then none
  else if ¬(r.status = 200 ∧ 500 < r.contentLen) then none
  else
    match selectRow r with
    | none => none
    | some d =>
      match d[2]?, d[3]?, d[4]?, d[5]? with
      | some c2, some c3, some c4, some c5 =>
        if hasDash c2 || hasDash c5 then none
        else
          let high_p := clean_number c3
          let low_p := clean_number c4
          some ⟨clean_number c2, high_p, low_p, clean_number c5,
                upper_pass_calc high_p low_p, mid_pass_calc high_p low_p,
                lower_pass_calc high_p low_p⟩
      | _, _, _, _ => none

/-- The quote fetch drawn from an oracle listing the outcomes successive
network requests would produce: the body of src/bot.py lines 58-109 contains a
single `requests.get` (line 66) and no loop, so exactly one outcome is
consumed whatever it holds. -/
def fetchQuote (oracle : List QuoteResp) : Option OhlcData × List QuoteResp :=
  match oracle with
  | [] => (none, [])
  | r :: rest => (processQuote r, rest)

/-- Number of requests the quote fetch issues against an oracle. -/
def quoteRequestsIssued (oracle : List QuoteResp) : ℕ :=
  oracle.length - (fetchQuote oracle).2.length

/-- One network outcome of the position endpoint (src/bot.py lines 116-124). -/
structure PosResp where
  ok : Bool
  status : ℕ
  tables : List (List (List String))
deriving DecidableEq

/-- Table selection of src/bot.py lines 126-130: the first parsed table whose
string form contains the counterparty label. -/
def tableHasForeign (t : List (List String)) : Bool :=
  t.any (fun row => row.any (fun c => hasSub "外資" c))

/-- Python's `" ".join(row.astype(str).values)` (src/bot.py line 142). -/
def joinSp (row : List String) : String := String.intercalate " " row

/-- Row selection of src/bot.py lines 140-145: the first row whose joined
string contains both the instrument and the counterparty labels. -/
def rowMatchesTarget (row : List String) : Bool :=
  hasSub "臺股期貨" (joinSp row) && hasSub "外資" (joinSp row)

/-- Anchor search of src/bot.py lines 150-154: index of the first cell whose
stripped string equals the counterparty label. -/
def findAnchor (vals : List String) : Option ℕ :=
  vals.findIdx? (fun v => trimS v = "外資")

/-- Offset choice of src/bot.py lines 156-159: the anchor index when found and
four more cells fit, else the fixed fallback offset 2. -/
def idxBase (vals : List String) : ℕ :=
  match findAnchor vals with
  | some i => if i + 4 < vals.length then i else 2
  | none => 2

/-- Cost extraction of src/bot.py lines 161-173: the four cells after the base
offset are cleaned into long volume, long notional, short volume and short
notional; an out-of-range index raises and the bare `except` leaves `(0,0)`. -/
def computeCosts (vals : List String) : ℤ × ℤ :=
  let b := idxBase vals
  match vals[b + 1]?, vals[b + 2]?, vals[b + 3]?, vals[b + 4]? with
  | some a1, some a2, some a3, some a4 =>
    (costOf (clean_number a1) (clean_number a2), costOf (clean_number a3) (clean_number a4))
  | _, _, _, _ => (0, 0)

/-- Embedding of the position branch of `fetch_data_by_date`
(src/bot.py lines 114-179).  The `ffill` of line 136 is modelled as the
identity: cells are already materialised strings in this table model.  Every
failure path keeps the initial `(0, 0)`. -/
def processPosition (r : PosResp) : ℤ × ℤ :=
  if r.ok = false then (0, 0)
  else if r.status ≠ 200 then (0, 0)
  else
    match r.tables.find? tableHasForeign with
    | none => (0, 0)
    | some t =>
      match t.find? rowMatchesTarget with
      | none => (0, 0)
      | some row => computeCosts row

/-- The position fetch drawn from an outcome oracle: src/bot.py lines 114-179
contain a single `requests.get` (line 121) and no loop. -/
def fetchPosition (oracle : List PosResp) : (ℤ × ℤ) × List PosResp :=
  match oracle with
  | [] => ((0, 0), [])
  | r :: rest => (processPosition r, rest)

/-- One network outcome of the sell-pressure endpoint
(src/bot.py lines 186-190): transport flag, HTTP status, the JSON `stat` field
and the `data` rows as strings. -/
structure PressResp where
  ok : Bool
  status : ℕ
  stat : String
  rows : List (List String)
deriving DecidableEq

/-- Scan for the 09:00:00 row (src/bot.py lines 192-199).  The loop indexes
`row[0]` directly, so an empty row raises and the whole block falls to the
handler (`none` here); `some none` means the loop finished without a match. -/
def findTimeRow : List (List String) → Option (Option (List String))
  | [] => some none
  | row :: rest =>
    match row.head? with
    | none => none
    | some h => if hasSub "09:00:00" h then some (some row) else findTimeRow rest

/-- Embedding of the pressure branch of `fetch_data_by_date`
(src/bot.py lines 184-206): every failure path leaves the initial `0`;
on a match, cell 4 is de-comma'd, parsed and scaled (`round(v/10000, 1)`). -/
def processPressure (r : PressResp) : ℚ :=
  if r.ok = false then 0
  else if r.status ≠ 200 then 0
  else if r.stat ≠ "OK" then 0
  else
    match findTimeRow r.rows with
    | none => 0
    | some none => 0
    | some (some row) =>
      match row[4]? with
      | none => 0
      | some c =>
        match parseFloat? (stripCommas c) with
        | none => 0
        | some v => pyRound1 (v / 10000)

/-- The pressure fetch drawn from an outcome oracle: src/bot.py lines 184-206
contain a single `requests.get` (line 187) and no loop. -/
def fetchPressure (oracle : List PressResp) : ℚ × List PressResp :=
  match oracle with
  | [] => (0, [])
  | r :: rest => (processPressure r, rest)

/-- Number of requests the pressure fetch issues against an oracle. -/
def pressureRequestsIssued (oracle : List PressResp) : ℕ :=
  oracle.length - (fetchPressure oracle).2.length

/-- The dictionary returned by `fetch_data_by_date` (src/bot.py lines 211-217). -/
structure DayRecord where
  date : String
  ohlc : OhlcData
  long_cost : ℤ
  short_cost : ℤ
  pressure : ℚ
deriving DecidableEq

/-- Embedding of `fetch_data_by_date` (src/bot.py lines 45-217): the quote is
the hard dependency (`return None` short-circuits before any further work);
position and pressure degrade to their zero defaults.  The `target_date`
argument is abstracted to its `date_db` string form. -/
def fetch_data_by_date (date_db : String) (q : QuoteResp) (p : PosResp)
    (pr : PressResp) : Option DayRecord :=
  match processQuote q with
  | none => none
  | some o =>
    let costs := processPosition p
    some ⟨date_db, o, costs.1, costs.2, processPressure pr⟩

/-- One Google-Sheet cell as written by the bot (string date, integer bands
and costs, rational prices and pressure). -/
inductive SheetCell where
  | s (v : String)
  | i (v : ℤ)
  | q (v : ℚ)
deriving DecidableEq

/-- The row assembled at src/bot.py line 245:
`[data["Date"]] + data["ohlc_list"] + [data["long_cost"], data["short_cost"], data["pressure"]]`
with `ohlc_list = [open, high, low, close, upper_pass, mid_pass, lower_pass]`
(line 97). -/
def row_to_write (d : DayRecord) : List SheetCell :=
  [SheetCell.s d.date, SheetCell.q d.ohlc.open_p, SheetCell.q d.ohlc.high_p,
   SheetCell.q d.ohlc.low_p, SheetCell.q d.ohlc.close_p,
   SheetCell.i d.ohlc.upper_pass, SheetCell.i d.ohlc.mid_pass,
   SheetCell.i d.ohlc.lower_pass, SheetCell.i d.long_cost,
   SheetCell.i d.short_cost, SheetCell.q d.pressure]

/-- The date comprehension of src/bot.py line 250 (`row[0] for row in
existing_data`): `none` models the `IndexError` a headless row raises, which
the surrounding `except` turns into "no write". -/
def headsOf : List (List SheetCell) → Option (List SheetCell)
  | [] => some []
  | r :: rs =>
    match r.head?, headsOf rs with
    | some h, some t => some (h :: t)
    | _, _ => none

/-- The idempotent writer (src/bot.py lines 247-256): read every existing
row's first cell, skip when the date is present, append otherwise. -/
def writeRow (store : List (List SheetCell)) (d : DayRecord) : List (List SheetCell) :=
  match headsOf store with
  | none => store
  | some dates =>
    if SheetCell.s d.date ∈ dates then store else store ++ [row_to_write d]

/-- Embedding of `fetch_and_save` (src/bot.py lines 219-260) acting on one
store: weekends skip the fetch, a failed fetch or an unavailable sheet writes
nothing, otherwise the writer runs. -/
def fetch_and_save (weekday : ℕ) (sheetOk : Bool) (date_db : String)
    (q : QuoteResp) (p : PosResp) (pr : PressResp)
    (store : List (List SheetCell)) : List (List SheetCell) :=
  if 5 ≤ weekday then store
  else
    match fetch_data_by_date date_db q p pr with
    | none => store
    | some d => if sheetOk then writeRow store d else store

/-- Number of rows keyed by a given date string in a store. -/
def countDate (store : List (List SheetCell)) (d : String) : ℕ :=
  (store.filter (fun r => r.head? == some (SheetCell.s d))).length

/-- Modelled from the spec: `mid_pass = round((high + low) / 2)` (§4.3). -/
def spec_mid_pass (high low : ℚ) : ℤ := pyRound ((high + low) / 2)

/-- Modelled from the spec: `upper_pass = round(low + (high - low) * 1.382)` (§4.3). -/
def spec_upper_pass (high low : ℚ) : ℤ := pyRound (low + (high - low) * (1.382 : ℚ))

/-- Modelled from the spec: `lower_pass = round(high - (high - low) * 1.382)` (§4.3). -/
def spec_lower_pass (high low : ℚ) : ℤ := pyRound (high - (high - low) * (1.382 : ℚ))

/-- Modelled from the spec: `cost = round(notional * 1000 / volume / 200)` when
`volume > 0`, else `0` (§4.3). -/
def spec_cost (volume notional : ℚ) : ℤ :=
  if 0 < volume then pyRound (notional * 1000 / volume / 200) else 0

/-- A successful quote response for 2025-01-02 carrying the spec's §8 sample
day session: open 17700, high 17850, low 17600, close 17780. -/
def qGood : QuoteResp :=
  ⟨true, 200, 5000,
   [["臺股期貨", "202501", "17,700", "17,850", "17,600", "17,780", "x"]]⟩

/-- A transport-level failure of the quote endpoint. -/
def qNet : QuoteResp := ⟨false, 0, 0, []⟩

/-- A quote response whose parsed prices violate `low ≤ open ≤ high`:
open 100, high 50, low 60, close 55. -/
def qGap : QuoteResp :=
  ⟨true, 200, 5000, [["臺股期貨", "202501", "100", "50", "60", "55", "x"]]⟩

/-- A non-trading-day quote response: dash in the open cell. -/
def qDashOpen : QuoteResp :=
  ⟨true, 200, 5000, [["臺股期貨", "202501", "-", "17,850", "17,600", "17,780", "x"]]⟩

/-- A quote response with a numeric open cell but a dash in the close cell. -/
def qDashClose : QuoteResp :=
  ⟨true, 200, 5000, [["臺股期貨", "202501", "17,700", "17,850", "17,600", "-", "x"]]⟩

/-- A successful position response: the spec's §8 sample long side
(volume 1000, notional 85000) and a short side of volume 1000,
notional 86000. -/
def pGood : PosResp :=
  ⟨true, 200, [[["臺股期貨", "外資", "1,000", "85,000", "1,000", "86,000"]]]⟩

/-- A position response whose long-notional cell is negative. -/
def pNeg : PosResp :=
  ⟨true, 200, [[["臺股期貨", "外資", "1000", "-85000", "1000", "85000"]]]⟩

/-- A successful pressure response with aggregate 5000 at the 09:00:00 row. -/
def prGood : PressResp := ⟨true, 200, "OK", [["09:00:00", "a", "b", "c", "5,000"]]⟩

/-- The quote data the pipeline derives from `qGood`. -/
def ohlcGood : OhlcData := ⟨17700, 17850, 17600, 17780, 17946, 17725, 17504⟩

/-- The daily record the pipeline assembles from `qGood`, `pGood`, `prGood`. -/
def recGood : DayRecord := ⟨"2025-01-02", ohlcGood, 425, 430, 1 / 2⟩

/-- The invariant-violating quote data `qGap` parses into. -/
def oGap : OhlcData := ⟨100, 50, 60, 55, 46, 55, 64⟩

/-- The record assembled from `qGap`, `pGood`, `prGood`. -/
def recGap : DayRecord := ⟨"2025-01-03", oGap, 425, 430, 1 / 2⟩

/-- A transport-level failure of the pressure endpoint. -/
def prNet : PressResp := ⟨false, 0, "", []⟩

/-- Helper: the empty digit list has value zero. -/
theorem digitsVal_nil : digitsVal [] = 0 := rfl

/-- Helper: a successful parse reduces `clean_number` to the parts value. -/
theorem clean_number_eq_partsVal (s : String) (p : ParsedNum)
    (h : parseParts? (stripCommas s).data = some p) :
    clean_number s = partsVal p := by
  simp [clean_number, parseFloat?, h]

/-- Helper: `clean_number` on a plain unsigned integer literal. -/
theorem clean_number_nat (s : String) (ip : List Char) (n : ℕ)
    (h : parseParts? (stripCommas s).data = some ⟨false, ip, []⟩)
    (hd : digitsVal ip = n) : clean_number s = (n : ℚ) := by
  rw [clean_number_eq_partsVal s _ h]
  simp [partsVal, digitsVal_nil, hd]

/-- Helper: `clean_number` on a negated integer literal. -/
theorem clean_number_neg_nat (s : String) (ip : List Char) (n : ℕ)
    (h : parseParts? (stripCommas s).data = some ⟨true, ip, []⟩)
    (hd : digitsVal ip = n) : clean_number s = -(n : ℚ) := by
  rw [clean_number_eq_partsVal s _ h]
  simp [partsVal, digitsVal_nil, hd]

/-- Helper: the success path of the quote branch returns exactly the cleaned
cells of the selected row together with the derived bands. -/
theorem processQuote_success (r : QuoteResp) (d : List String) (c2 c3 c4 c5 : String)
    (hok : r.ok = true) (hst : r.status = 200) (hlen : 500 < r.contentLen)
    (hsel : selectRow r = some d)
    (h2 : d[2]? = some c2) (h3 : d[3]? = some c3)
    (h4 : d[4]? = some c4) (h5 : d[5]? = some c5)
    (hd2 : hasDash c2 = false) (hd5 : hasDash c5 = false) :
    processQuote r = some ⟨clean_number c2, clean_number c3, clean_number c4,
      clean_number c5,
      upper_pass_calc (clean_number c3) (clean_number c4),
      mid_pass_calc (clean_number c3) (clean_number c4),
      lower_pass_calc (clean_number c3) (clean_number c4)⟩ := by
  simp [processQuote, hok, hst, hlen, hsel, h2, h3, h4, h5, hd2, hd5]

/-- Helper: a dash placeholder in the open or close cell of the selected row
makes the quote branch fail, whatever else the response holds. -/
theorem processQuote_dash (r : QuoteResp) (d : List String) (c2 c5 : String)
    (hsel : selectRow r = some d) (h2 : d[2]? = some c2)
    (h5 : d[5]? = some c5) (hd : hasDash c2 = true ∨ hasDash c5 = true) :
    processQuote r = none := by
  unfold processQuote
  split
  · rfl
  split
  · rfl
  rw [hsel]
  cases h3 : d[3]? <;> cases h4 : d[4]? <;>
    rcases hd with h | h <;> simp [h2, h5, h3, h4, h]

/-- Helper: a failed quote branch fails the whole fetch. -/
theorem fetch_data_none_of_quote_none (date_db : String) (q : QuoteResp)
    (p : PosResp) (pr : PressResp) (h : processQuote q = none) :
    fetch_data_by_date date_db q p pr = none := by
  simp [fetch_data_by_date, h]

/-- Helper: a successful quote branch makes the fetch return the assembled
record. -/
theorem fetch_data_some (date_db : String) (q : QuoteResp) (p : PosResp)
    (pr : PressResp) (o : OhlcData) (h : processQuote q = some o) :
    fetch_data_by_date date_db q p pr =
      some ⟨date_db, o, (processPosition p).1, (processPosition p).2,
            processPressure pr⟩ := by
  simp [fetch_data_by_date, h]

/-- Helper: when the fetch fails nothing is written and the store is kept. -/
theorem fetch_and_save_unchanged (weekday : ℕ) (sheetOk : Bool)
    (date_db : String) (q : QuoteResp) (p : PosResp) (pr : PressResp)
    (store : List (List SheetCell))
    (h : fetch_data_by_date date_db q p pr = none) :
    fetch_and_save weekday sheetOk date_db q p pr store = store := by
  unfold fetch_and_save
  split
  · rfl
  rw [h]

/-- Helper: the success path of the position branch reduces to the cost
extraction on the located row. -/
theorem processPosition_success (r : PosResp) (t : List (List String))
    (row : List String) (hok : r.ok = true) (hst : r.status = 200)
    (ht : r.tables.find? tableHasForeign = some t)
    (hr : t.find? rowMatchesTarget = some row) :
    processPosition r = computeCosts row := by
  simp [processPosition, hok, hst, ht, hr]

/-- Helper: the cost extraction on a row whose base offset and four following
cells are known. -/
theorem computeCosts_eval (vals : List String) (b : ℕ) (a1 a2 a3 a4 : String)
    (hb : idxBase vals = b)
    (h1 : vals[b + 1]? = some a1) (h2 : vals[b + 2]? = some a2)
    (h3 : vals[b + 3]? = some a3) (h4 : vals[b + 4]? = some a4) :
    computeCosts vals = (costOf (clean_number a1) (clean_number a2),
                         costOf (clean_number a3) (clean_number a4)) := by
  simp [computeCosts, hb, h1, h2, h3, h4]

/-- Helper: the success path of the pressure branch scales cell 4 of the
09:00:00 row. -/
theorem processPressure_success (r : PressResp) (row : List String)
    (c : String) (v : ℚ) (hok : r.ok = true) (hst : r.status = 200)
    (hstat : r.stat = "OK") (hrow : findTimeRow r.rows = some (some row))
    (hc : row[4]? = some c) (hv : parseFloat? (stripCommas c) = some v) :
    processPressure r = pyRound1 (v / 10000) := by
  simp [processPressure, hok, hst, hstat, hrow, hc, hv]

/-- Helper: cleaned value of the sample open cell. -/
theorem cn_17700 : clean_number "17,700" = 17700 := by
  rw [clean_number_nat "17,700" ['1', '7', '7', '0', '0'] 17700 (by decide) (by decide)]
  norm_num

/-- Helper: cleaned value of the sample high cell. -/
theorem cn_17850 : clean_number "17,850" = 17850 := by
  rw [clean_number_nat "17,850" ['1', '7', '8', '5', '0'] 17850 (by decide) (by decide)]
  norm_num

/-- Helper: cleaned value of the sample low cell. -/
theorem cn_17600 : clean_number "17,600" = 17600 := by
  rw [clean_number_nat "17,600" ['1', '7', '6', '0', '0'] 17600 (by decide) (by decide)]
  norm_num

/-- Helper: cleaned value of the sample close cell. -/
theorem cn_17780 : clean_number "17,780" = 17780 := by
  rw [clean_number_nat "17,780" ['1', '7', '7', '8', '0'] 17780 (by decide) (by decide)]
  norm_num

/-- Helper: cleaned value of the sample volume cells. -/
theorem cn_1000c : clean_number "1,000" = 1000 := by
  rw [clean_number_nat "1,000" ['1', '0', '0', '0'] 1000 (by decide) (by decide)]
  norm_num

/-- Helper: cleaned value of the sample long-notional cell. -/
theorem cn_85000c : clean_number "85,000" = 85000 := by
  rw [clean_number_nat "85,000" ['8', '5', '0', '0', '0'] 85000 (by decide) (by decide)]
  norm_num

/-- Helper: cleaned value of the sample short-notional cell. -/
theorem cn_86000c : clean_number "86,000" = 86000 := by
  rw [clean_number_nat "86,000" ['8', '6', '0', '0', '0'] 86000 (by decide) (by decide)]
  norm_num

/-- Helper: cleaned value of a plain volume cell. -/
theorem cn_1000 : clean_number "1000" = 1000 := by
  rw [clean_number_nat "1000" ['1', '0', '0', '0'] 1000 (by decide) (by decide)]
  norm_num

/-- Helper: cleaned value of a plain notional cell. -/
theorem cn_85000 : clean_number "85000" = 85000 := by
  rw [clean_number_nat "85000" ['8', '5', '0', '0', '0'] 85000 (by decide) (by decide)]
  norm_num

/-- Helper: cleaned value of a negative notional cell. -/
theorem cn_neg85000 : clean_number "-85000" = -85000 := by
  rw [clean_number_neg_nat "-85000" ['8', '5', '0', '0', '0'] 85000 (by decide) (by decide)]
  norm_num

/-- Helper: the sample invariant-violating cells. -/
theorem cn_gap : clean_number "100" = 100 ∧ clean_number "50" = 50 ∧
    clean_number "60" = 60 ∧ clean_number "55" = 55 := by
  refine ⟨?_, ?_, ?_, ?_⟩
  · rw [clean_number_nat "100" ['1', '0', '0'] 100 (by decide) (by decide)]; norm_num
  · rw [clean_number_nat "50" ['5', '0'] 50 (by decide) (by decide)]; norm_num
  · rw [clean_number_nat "60" ['6', '0'] 60 (by decide) (by decide)]; norm_num
  · rw [clean_number_nat "55" ['5', '5'] 55 (by decide) (by decide)]; norm_num

/-- Helper: the sample day's upper band, a half tie rounded to the even
neighbour (17945.5 → 17946). -/
theorem upper_pass_sample : upper_pass_calc 17850 17600 = 17946 := by
  norm_num [upper_pass_calc, pyRound]

/-- Helper: the sample day's middle band. -/
theorem mid_pass_sample : mid_pass_calc 17850 17600 = 17725 := by
  norm_num [mid_pass_calc, pyRound]

/-- Helper: the sample day's lower band, a half tie rounded to the even
neighbour (17504.5 → 17504). -/
theorem lower_pass_sample : lower_pass_calc 17850 17600 = 17504 := by
  norm_num [lower_pass_calc, pyRound]

/-- Helper: the spec's §8 sample cost basis. -/
theorem costOf_sample : costOf 1000 85000 = 425 := by norm_num [costOf, pyRound]

/-- Helper: the sample short-side cost basis. -/
theorem costOf_sample_short : costOf 1000 86000 = 430 := by norm_num [costOf, pyRound]

/-- Helper: the cost a negative notional cell produces. -/
theorem costOf_neg : costOf 1000 (-85000) = -425 := by norm_num [costOf, pyRound]

/-- Helper: evaluation of the quote branch on the sample response. -/
theorem processQuote_qGood : processQuote qGood = some ohlcGood := by
  rw [processQuote_success qGood
      ["臺股期貨", "202501", "17,700", "17,850", "17,600", "17,780", "x"]
      "17,700" "17,850" "17,600" "17,780" rfl rfl (by decide) (by decide)
      (by decide) (by decide) (by decide) (by decide) (by decide) (by decide)]
  simp only [cn_17700, cn_17850, cn_17600, cn_17780, upper_pass_sample,
    mid_pass_sample, lower_pass_sample, ohlcGood]

/-- Helper: evaluation of the position branch on the sample response. -/
theorem processPosition_pGood : processPosition pGood = (425, 430) := by
  rw [processPosition_success pGood
      [["臺股期貨", "外資", "1,000", "85,000", "1,000", "86,000"]]
      ["臺股期貨", "外資", "1,000", "85,000", "1,000", "86,000"]
      rfl rfl (by decide) (by decide)]
  rw [computeCosts_eval ["臺股期貨", "外資", "1,000", "85,000", "1,000", "86,000"]
      1 "1,000" "85,000" "1,000" "86,000"
      (by decide) (by decide) (by decide) (by decide) (by decide)]
  rw [cn_1000c, cn_85000c, cn_86000c, costOf_sample, costOf_sample_short]

/-- Helper: evaluation of the position branch on the negative-notional
response. -/
theorem processPosition_pNeg : processPosition pNeg = (-425, 425) := by
  rw [processPosition_success pNeg
      [["臺股期貨", "外資", "1000", "-85000", "1000", "85000"]]
      ["臺股期貨", "外資", "1000", "-85000", "1000", "85000"]
      rfl rfl (by decide) (by decide)]
  rw [computeCosts_eval ["臺股期貨", "外資", "1000", "-85000", "1000", "85000"]
      1 "1000" "-85000" "1000" "85000"
      (by decide) (by decide) (by decide) (by decide) (by decide)]
  rw [cn_1000, cn_85000, cn_neg85000, costOf_neg, costOf_sample]

/-- Helper: evaluation of the pressure branch on the sample response
(`round(5000/10000, 1) = 0.5`). -/
theorem processPressure_prGood : processPressure prGood = 1 / 2 := by
  have hp : parseParts? (stripCommas "5,000").data =
      some ⟨false, ['5', '0', '0', '0'], []⟩ := by decide
  have hv : parseFloat? (stripCommas "5,000") =
      some (partsVal ⟨false, ['5', '0', '0', '0'], []⟩) := by
    simp [parseFloat?, hp]
  have hval : partsVal ⟨false, ['5', '0', '0', '0'], []⟩ = (5000 : ℚ) := by
    have hd : digitsVal ['5', '0', '0', '0'] = 5000 := by decide
    simp [partsVal, digitsVal_nil, hd]
  rw [processPressure_success prGood ["09:00:00", "a", "b", "c", "5,000"]
      "5,000" _ rfl rfl rfl (by decide) (by decide) hv]
  rw [hval]
  norm_num [pyRound1, pyRound]

/-- Helper: the full fetch on the sample day assembles `recGood`. -/
theorem fetch_data_good :
    fetch_data_by_date "2025-01-02" qGood pGood prGood = some recGood := by
  rw [fetch_data_some _ _ _ _ ohlcGood processQuote_qGood]
  simp only [processPosition_pGood, processPressure_prGood, recGood]

/-- Helper: Python's round never goes below zero on nonnegative input. -/
theorem pyRound_nonneg (q : ℚ) (h : 0 ≤ q) : 0 ≤ pyRound q := by
  have hf : (0 : ℤ) ≤ ⌊q⌋ := Int.floor_nonneg.mpr h
  unfold pyRound
  split
  · exact hf
  split
  · omega
  split
  · exact hf
  · omega

/-- Helper: a nonnegative notional cell yields a nonnegative cost. -/
theorem costOf_nonneg (vol amt : ℚ) (h : 0 ≤ amt) : 0 ≤ costOf vol amt := by
  unfold costOf
  split
  · next hv => exact pyRound_nonneg _ (by positivity)
  · exact le_refl 0

/-- Helper: the written row is keyed by the record's date. -/
theorem row_to_write_head (d : DayRecord) :
    (row_to_write d).head? = some (SheetCell.s d.date) := rfl

/-- Helper: the writer skips when the date is among the store's keys. -/
theorem writeRow_of_mem (store : List (List SheetCell)) (rec : DayRecord)
    (ds : List SheetCell) (h : headsOf store = some ds)
    (hmem : SheetCell.s rec.date ∈ ds) : writeRow store rec = store := by
  simp [writeRow, h, hmem]

/-- Helper: the writer appends exactly one row when the date is absent. -/
theorem writeRow_of_not_mem (store : List (List SheetCell)) (rec : DayRecord)
    (ds : List SheetCell) (h : headsOf store = some ds)
    (hmem : SheetCell.s rec.date ∉ ds) :
    writeRow store rec = store ++ [row_to_write rec] := by
  simp [writeRow, h, hmem]

/-- Helper: appending the written row extends the key list by the date. -/
theorem headsOf_append (store : List (List SheetCell)) (ds : List SheetCell)
    (rec : DayRecord) (h : headsOf store = some ds) :
    headsOf (store ++ [row_to_write rec]) = some (ds ++ [SheetCell.s rec.date]) := by
  induction store generalizing ds with
  | nil =>
    simp only [headsOf, Option.some.injEq] at h
    subst h
    simp [headsOf, row_to_write_head]
  | cons a t ih =>
    simp only [headsOf] at h
    cases ha : a.head? with
    | none => rw [ha] at h; simp at h
    | some b =>
      cases ht : headsOf t with
      | none => rw [ha, ht] at h; simp at h
      | some c =>
        rw [ha, ht] at h
        simp only [Option.some.injEq] at h
        subst h
        simp [headsOf, ha, ih c ht]

/-- Helper: a store whose keys avoid a date holds no row keyed by it. -/
theorem countDate_zero (store : List (List SheetCell)) (ds : List SheetCell)
    (d : String) (h : headsOf store = some ds)
    (hd : SheetCell.s d ∉ ds) : countDate store d = 0 := by
  induction store generalizing ds with
  | nil => simp [countDate]
  | cons a t ih =>
    simp only [headsOf] at h
    cases ha : a.head? with
    | none => rw [ha] at h; simp at h
    | some b =>
      cases ht : headsOf t with
      | none => rw [ha, ht] at h; simp at h
      | some c =>
        rw [ha, ht] at h
        simp only [Option.some.injEq] at h
        subst h
        have hbd : b ≠ SheetCell.s d := fun hx => hd (by simp [hx])
        have hdc : SheetCell.s d ∉ c := fun hx => hd (by simp [hx])
        simp only [countDate, List.filter_cons, ha]
        rw [if_neg (by simp [hbd])]
        exact ih c ht hdc

/-- Helper: appending the written row bumps the date count by one. -/
theorem countDate_append_self (store : List (List SheetCell)) (rec : DayRecord) :
    countDate (store ++ [row_to_write rec]) rec.date =
      countDate store rec.date + 1 := by
  simp [countDate, List.filter_append, row_to_write_head]

/-- Helper: a dash in the open cell fails the quote branch even when the
close cell is absent. -/
theorem processQuote_dash_open_any (q : QuoteResp) (d : List String) (c2 : String)
    (hsel : selectRow q = some d) (h2 : d[2]? = some c2)
    (hd2 : hasDash c2 = true) : processQuote q = none := by
  cases h5 : d[5]? with
  | some c5 => exact processQuote_dash q d c2 c5 hsel h2 h5 (Or.inl hd2)
  | none =>
    unfold processQuote
    split
    · rfl
    split
    · rfl
    rw [hsel]
    cases h3 : d[3]? <;> cases h4 : d[4]? <;> simp [h2, h5, h3, h4]

/-- Helper: inversion of a successful quote branch — the selected row exists,
its four cells are present and dash-free, and the result is exactly their
cleaned values with the derived bands. -/
theorem processQuote_some_inv (r : QuoteResp) (o : OhlcData)
    (h : processQuote r = some o) :
    ∃ d c2 c3 c4 c5, selectRow r = some d ∧ d[2]? = some c2 ∧ d[3]? = some c3 ∧
      d[4]? = some c4 ∧ d[5]? = some c5 ∧ hasDash c2 = false ∧
      hasDash c5 = false ∧
      o = ⟨clean_number c2, clean_number c3, clean_number c4, clean_number c5,
           upper_pass_calc (clean_number c3) (clean_number c4),
           mid_pass_calc (clean_number c3) (clean_number c4),
           lower_pass_calc (clean_number c3) (clean_number c4)⟩ := by
  unfold processQuote at h
  split at h
  · exact Option.noConfusion h
  split at h
  · exact Option.noConfusion h
  cases hsel : selectRow r with
  | none => simp [hsel] at h
  | some d =>
    cases h2 : d[2]? with
    | none => simp [hsel, h2] at h
    | some c2 =>
      cases h3 : d[3]? with
      | none => simp [hsel, h2, h3] at h
      | some c3 =>
        cases h4 : d[4]? with
        | none => simp [hsel, h2, h3, h4] at h
        | some c4 =>
          cases h5 : d[5]? with
          | none => simp [hsel, h2, h3, h4, h5] at h
          | some c5 =>
            cases hd2 : hasDash c2 with
            | true => simp [hsel, h2, h3, h4, h5, hd2] at h
            | false =>
              cases hd5 : hasDash c5 with
              | true => simp [hsel, h2, h3, h4, h5, hd2, hd5] at h
              | false =>
                simp only [hsel, h2, h3, h4, h5, hd2, hd5, Bool.or_self,
                  Bool.false_eq_true, if_false, Option.some.injEq] at h
                exact ⟨d, c2, c3, c4, c5, rfl, h2, h3, h4, h5, hd2, hd5, h.symm⟩

/-- Helper: the upper band of the invariant-violating sample. -/
theorem upper_gap : upper_pass_calc 50 60 = 46 := by norm_num [upper_pass_calc, pyRound]

/-- Helper: the middle band of the invariant-violating sample. -/
theorem mid_gap : mid_pass_calc 50 60 = 55 := by norm_num [mid_pass_calc, pyRound]

/-- Helper: the lower band of the invariant-violating sample. -/
theorem lower_gap : lower_pass_calc 50 60 = 64 := by norm_num [lower_pass_calc, pyRound]

/-- Helper: evaluation of the quote branch on the invariant-violating
response. -/
theorem processQuote_qGap : processQuote qGap = some oGap := by
  rw [processQuote_success qGap ["臺股期貨", "202501", "100", "50", "60", "55", "x"]
      "100" "50" "60" "55" rfl rfl (by decide) (by decide) (by decide) (by decide)
      (by decide) (by decide) (by decide) (by decide)]
  obtain ⟨g1, g2, g3, g4⟩ := cn_gap
  simp only [g1, g2, g3, g4, upper_gap, mid_gap, lower_gap, oGap]

/-- Helper: the full fetch on the invariant-violating day. -/
theorem fetch_data_gap :
    fetch_data_by_date "2025-01-03" qGap pGood prGood = some recGap := by
  rw [fetch_data_some _ _ _ _ oGap processQuote_qGap]
  simp only [processPosition_pGood, processPressure_prGood, recGap]

/-- C1: the persisted daily row carries no Divider column at all — the writer
assembles exactly eleven cells, `Date, Open, High, Low, Close, Upper_Pass,
Mid_Pass, Lower_Pass, Long_Cost, Short_Cost, Sell_Pressure`, so the claimed
twelve-column schema with `Divider = round((open+low+close)/3)` in ninth
position is not what the code writes. -/
theorem claim1_row_has_no_divider :
    fetch_data_by_date "2025-01-02" qGood pGood prGood = some recGood ∧
    row_to_write recGood =
      [SheetCell.s "2025-01-02", SheetCell.q 17700, SheetCell.q 17850,
       SheetCell.q 17600, SheetCell.q 17780, SheetCell.i 17946,
       SheetCell.i 17725, SheetCell.i 17504, SheetCell.i 425, SheetCell.i 430,
       SheetCell.q (1 / 2)] ∧
    (row_to_write recGood).length = 11 := by
  refine ⟨fetch_data_good, ?_, rfl⟩
  simp [row_to_write, recGood, ohlcGood]

/-- C2 (counterexample): a response whose parsed prices violate
`low ≤ open ≤ high` (open 100, high 50, low 60, close 55) passes through the
quote branch successfully and is written to the store — no invariant check or
`InvariantViolation` failure exists. -/
theorem claim2_invariant_not_checked_cex :
    processQuote qGap = some oGap ∧
    ¬(oGap.low_p ≤ oGap.open_p ∧ oGap.open_p ≤ oGap.high_p) ∧
    fetch_and_save 0 true "2025-01-03" qGap pGood prGood [] =
      [row_to_write recGap] := by
  refine ⟨processQuote_qGap, by norm_num [oGap], ?_⟩
  unfold fetch_and_save
  rw [if_neg (by norm_num), fetch_data_gap]
  simp [writeRow, headsOf]

/-- C2 (amended): when the quote branch succeeds the returned open, high, low
and close are exactly the cleaned strings of the selected row's cells 2-5;
no ordering invariant is checked on them. -/
theorem claim2_success_returns_cleaned_cells (r : QuoteResp) (o : OhlcData)
    (h : processQuote r = some o) :
    ∃ d c2 c3 c4 c5, selectRow r = some d ∧ d[2]? = some c2 ∧
      d[3]? = some c3 ∧ d[4]? = some c4 ∧ d[5]? = some c5 ∧
      o.open_p = clean_number c2 ∧ o.high_p = clean_number c3 ∧
      o.low_p = clean_number c4 ∧ o.close_p = clean_number c5 := by
  obtain ⟨d, c2, c3, c4, c5, hsel, h2, h3, h4, h5, _, _, ho⟩ :=
    processQuote_some_inv r o h
  subst ho
  exact ⟨d, c2, c3, c4, c5, hsel, h2, h3, h4, h5, rfl, rfl, rfl, rfl⟩

/-- C2 (witness): the amended statement applied to the sample success. -/
theorem claim2_witness :
    processQuote qGood = some ohlcGood ∧
    ∃ d c2 c3 c4 c5, selectRow qGood = some d ∧ d[2]? = some c2 ∧
      d[3]? = some c3 ∧ d[4]? = some c4 ∧ d[5]? = some c5 ∧
      ohlcGood.open_p = clean_number c2 ∧ ohlcGood.high_p = clean_number c3 ∧
      ohlcGood.low_p = clean_number c4 ∧ ohlcGood.close_p = clean_number c5 :=
  ⟨processQuote_qGood,
   claim2_success_returns_cleaned_cells qGood ohlcGood processQuote_qGood⟩

/-- C3: the store write is idempotent per date — with readable keys, a present
date writes nothing and keeps the store, an absent date appends exactly one
row, writing twice leaves exactly one row keyed by the date, and the original
store is always a prefix of the result (no rewrite or delete). -/
theorem claim3_writer_idempotent (store : List (List SheetCell))
    (rec : DayRecord) (ds : List SheetCell) (h : headsOf store = some ds) :
    (SheetCell.s rec.date ∈ ds → writeRow store rec = store) ∧
    (SheetCell.s rec.date ∉ ds →
      writeRow store rec = store ++ [row_to_write rec] ∧
      countDate (writeRow (writeRow store rec) rec) rec.date = 1) ∧
    (∃ t, writeRow store rec = store ++ t) := by
  refine ⟨fun hmem => writeRow_of_mem store rec ds h hmem, fun hnot => ?_, ?_⟩
  · have h1 : writeRow store rec = store ++ [row_to_write rec] :=
      writeRow_of_not_mem store rec ds h hnot
    refine ⟨h1, ?_⟩
    have h2 : headsOf (store ++ [row_to_write rec]) =
        some (ds ++ [SheetCell.s rec.date]) := headsOf_append store ds rec h
    have h3 : writeRow (store ++ [row_to_write rec]) rec =
        store ++ [row_to_write rec] := writeRow_of_mem _ rec _ h2 (by simp)
    rw [h1, h3, countDate_append_self, countDate_zero store ds rec.date h hnot]
  · by_cases hmem : SheetCell.s rec.date ∈ ds
    · exact ⟨[], by rw [writeRow_of_mem store rec ds h hmem, List.append_nil]⟩
    · exact ⟨[row_to_write rec], writeRow_of_not_mem store rec ds h hmem⟩

/-- C3 (witness): on the empty store the sample record is appended once, a
second run skips, and exactly one row for the date remains. -/
theorem claim3_witness :
    writeRow [] recGood = [row_to_write recGood] ∧
    countDate (writeRow (writeRow [] recGood) recGood) recGood.date = 1 ∧
    writeRow [row_to_write recGood] recGood = [row_to_write recGood] := by
  have h1 := claim3_writer_idempotent [] recGood [] rfl
  have h2 := claim3_writer_idempotent [row_to_write recGood] recGood
      [SheetCell.s recGood.date] rfl
  exact ⟨by simpa using (h1.2.1 (by simp)).1, (h1.2.1 (by simp)).2,
    h2.1 (by simp)⟩

/-- C4 (counterexample): on a transport failure the quote fetch consumes
exactly one network outcome and gives up — with a second, good outcome
available it still returns failure, so no retry happens; the pressure fetch
behaves the same. -/
theorem claim4_single_request_cex :
    processQuote qNet = none ∧
    fetchQuote [qNet, qGood] = (none, [qGood]) ∧
    quoteRequestsIssued [qNet, qGood] = 1 ∧
    ¬1 < quoteRequestsIssued [qNet, qGood] ∧
    processPressure prNet = 0 ∧
    fetchPressure [prNet, prGood] = (0, [prGood]) ∧
    pressureRequestsIssued [prNet, prGood] = 1 := by
  refine ⟨rfl, ?_, ?_, ?_, rfl, ?_, ?_⟩
  · simp [fetchQuote, processQuote, qNet]
  · simp [quoteRequestsIssued, fetchQuote]
  · simp [quoteRequestsIssued, fetchQuote]
  · simp [fetchPressure, processPressure, prNet]
  · simp [pressureRequestsIssued, fetchPressure]

/-- C4 (amended): each fetcher issues exactly one request per invocation —
the quote and pressure branches each contain a single `requests.get` and no
retry loop or backoff. -/
theorem claim4_fetchers_issue_one_request (qs : List QuoteResp)
    (ps : List PressResp) (hq : qs ≠ []) (hp : ps ≠ []) :
    quoteRequestsIssued qs = 1 ∧ pressureRequestsIssued ps = 1 := by
  constructor
  · cases qs with
    | nil => exact absurd rfl hq
    | cons a t =>
      simp only [quoteRequestsIssued, fetchQuote, List.length_cons]
      omega
  · cases ps with
    | nil => exact absurd rfl hp
    | cons a t =>
      simp only [pressureRequestsIssued, fetchPressure, List.length_cons]
      omega

/-- C4 (witness): the single-request statement applied to one-outcome
oracles. -/
theorem claim4_witness :
    quoteRequestsIssued [qNet] = 1 ∧ pressureRequestsIssued [prNet] = 1 :=
  claim4_fetchers_issue_one_request [qNet] [prNet] (by simp) (by simp)

/-- C5 (counterexample): on the spec's sample quote the code's upper band is
17946, not the claimed 17945 — Python's round-half-to-even sends the
17945.5 tie up to the even neighbour. -/
theorem claim5_upper_pass_cex : upper_pass_calc 17850 17600 ≠ 17945 := by
  rw [upper_pass_sample]
  decide

/-- C5 (amended): on open 17700, high 17850, low 17600, close 17780 the code
produces mid 17725, upper 17946 and lower 17504, both half ties resolved to
the even neighbour (round-half-to-even throughout); no divider is computed. -/
theorem claim5_sample_band_values :
    mid_pass_calc 17850 17600 = 17725 ∧ upper_pass_calc 17850 17600 = 17946 ∧
    lower_pass_calc 17850 17600 = 17504 :=
  ⟨mid_pass_sample, upper_pass_sample, lower_pass_sample⟩

/-- C6: every successfully fetched quote carries bands equal to the spec's
formulas `round((high+low)/2)`, `round(low+(high-low)*1.382)` and
`round(high-(high-low)*1.382)` evaluated at its own high and low. -/
theorem claim6_bands_match_spec (r : QuoteResp) (o : OhlcData)
    (h : processQuote r = some o) :
    o.mid_pass = spec_mid_pass o.high_p o.low_p ∧
    o.upper_pass = spec_upper_pass o.high_p o.low_p ∧
    o.lower_pass = spec_lower_pass o.high_p o.low_p := by
  obtain ⟨d, c2, c3, c4, c5, _, _, _, _, _, _, _, ho⟩ :=
    processQuote_some_inv r o h
  subst ho
  exact ⟨rfl, rfl, rfl⟩

/-- C6 (witness): the band-formula statement applied to the sample success. -/
theorem claim6_witness :
    processQuote qGood = some ohlcGood ∧
    ohlcGood.mid_pass = spec_mid_pass ohlcGood.high_p ohlcGood.low_p ∧
    ohlcGood.upper_pass = spec_upper_pass ohlcGood.high_p ohlcGood.low_p ∧
    ohlcGood.lower_pass = spec_lower_pass ohlcGood.high_p ohlcGood.low_p :=
  ⟨processQuote_qGood, claim6_bands_match_spec qGood ohlcGood processQuote_qGood⟩

/-- C7: the code's cost computation equals the spec formula
`round(notional * 1000 / volume / 200)` guarded by `volume > 0`, is `0` at
zero volume (the division is never taken there), and gives 425 on the
spec's sample volume 1000, notional 85000. -/
theorem claim7_cost_matches_spec (vol amt : ℚ) :
    costOf vol amt = spec_cost vol amt ∧ (vol = 0 → costOf vol amt = 0) ∧
    costOf 1000 85000 = 425 :=
  ⟨rfl, fun h => by simp [costOf, h], costOf_sample⟩

/-- C7 (witness): the cost statement applied at zero volume and at the
sample position. -/
theorem claim7_witness :
    costOf 0 85000 = spec_cost 0 85000 ∧ costOf 0 85000 = 0 ∧
    costOf 1000 85000 = 425 := by
  have h := claim7_cost_matches_spec 0 85000
  exact ⟨h.1, h.2.1 rfl, h.2.2⟩

/-- C8: a dash placeholder in the open cell of the selected row fails the
quote branch, the whole fetch returns nothing, and the run leaves the store
untouched — and any quote-branch failure at all aborts the run with no write
attempted. -/
theorem claim8_placeholder_aborts_run (q : QuoteResp) (d : List String)
    (c2 : String) (hsel : selectRow q = some d) (h2 : d[2]? = some c2)
    (hd2 : hasDash c2 = true) :
    processQuote q = none ∧
    (∀ date_db p pr, fetch_data_by_date date_db q p pr = none) ∧
    (∀ weekday sheetOk date_db p pr store,
      fetch_and_save weekday sheetOk date_db q p pr store = store) ∧
    (∀ weekday sheetOk date_db (q' : QuoteResp) p pr store,
      processQuote q' = none →
      fetch_and_save weekday sheetOk date_db q' p pr store = store) := by
  have hq := processQuote_dash_open_any q d c2 hsel h2 hd2
  exact ⟨hq, fun date p pr => fetch_data_none_of_quote_none date q p pr hq,
    fun wd sOk date p pr store => fetch_and_save_unchanged wd sOk date q p pr
      store (fetch_data_none_of_quote_none date q p pr hq),
    fun wd sOk date q' p pr store hq' => fetch_and_save_unchanged wd sOk date
      q' p pr store (fetch_data_none_of_quote_none date q' p pr hq')⟩

/-- C8 (witness): the abort statement applied to the dash-open response on an
empty store. -/
theorem claim8_witness :
    processQuote qDashOpen = none ∧
    fetch_and_save 0 true "2025-01-02" qDashOpen pGood prGood [] = [] := by
  have h := claim8_placeholder_aborts_run qDashOpen
      ["臺股期貨", "202501", "-", "17,850", "17,600", "17,780", "x"] "-"
      (by decide) (by decide) (by decide)
  exact ⟨h.1, h.2.2.1 0 true "2025-01-02" pGood prGood []⟩

/-- C9 (counterexample): a negative long-notional cell flows through
`clean_number` into the cost computation and the assembled record holds the
negative cost -425 — `0` is not the only sentinel and negativity is not
prevented. -/
theorem claim9_negative_cost_cex :
    processPosition pNeg = (-425, 425) ∧
    fetch_data_by_date "2025-01-06" qGood pNeg prGood =
      some ⟨"2025-01-06", ohlcGood, -425, 425, 1 / 2⟩ ∧
    (-425 : ℤ) < 0 := by
  refine ⟨processPosition_pNeg, ?_, by decide⟩
  rw [fetch_data_some _ _ _ _ ohlcGood processQuote_qGood]
  simp only [processPosition_pNeg, processPressure_prGood]

/-- C9 (amended): the extracted costs are nonnegative whenever the two parsed
notional cells are nonnegative (the volume cells need no sign assumption:
a nonpositive volume short-circuits to the sentinel 0). -/
theorem claim9_costs_nonneg (vals : List String) (b : ℕ)
    (a1 a2 a3 a4 : String) (hb : idxBase vals = b)
    (h1 : vals[b + 1]? = some a1) (h2 : vals[b + 2]? = some a2)
    (h3 : vals[b + 3]? = some a3) (h4 : vals[b + 4]? = some a4)
    (hn2 : 0 ≤ clean_number a2) (hn4 : 0 ≤ clean_number a4) :
    0 ≤ (computeCosts vals).1 ∧ 0 ≤ (computeCosts vals).2 := by
  rw [computeCosts_eval vals b a1 a2 a3 a4 hb h1 h2 h3 h4]
  exact ⟨costOf_nonneg _ _ hn2, costOf_nonneg _ _ hn4⟩

/-- C9 (witness): the nonnegativity statement applied to the sample position
row. -/
theorem claim9_witness :
    0 ≤ (computeCosts ["臺股期貨", "外資", "1,000", "85,000", "1,000", "86,000"]).1 ∧
    0 ≤ (computeCosts ["臺股期貨", "外資", "1,000", "85,000", "1,000", "86,000"]).2 :=
  claim9_costs_nonneg ["臺股期貨", "外資", "1,000", "85,000", "1,000", "86,000"] 1
    "1,000" "85,000" "1,000" "86,000" (by decide) (by decide) (by decide)
    (by decide) (by decide) (by rw [cn_85000c]; norm_num)
    (by rw [cn_86000c]; norm_num)

/-- C10: a dash placeholder in the close cell of the selected row fails the
quote branch and leaves the store untouched, even when the open cell parses
as a valid number — the placeholder check covers both cells. -/
theorem claim10_close_dash_aborts (q : QuoteResp) (d : List String)
    (c2 c5 : String) (v : ℚ) (hsel : selectRow q = some d)
    (h2 : d[2]? = some c2) (h5 : d[5]? = some c5)
    (hnum : parseFloat? (stripCommas c2) = some v) (hd5 : hasDash c5 = true) :
    processQuote q = none ∧
    (∀ weekday sheetOk date_db p pr store,
      fetch_and_save weekday sheetOk date_db q p pr store = store) := by
  have hq := processQuote_dash q d c2 c5 hsel h2 h5 (Or.inr hd5)
  exact ⟨hq, fun wd sOk date p pr store => fetch_and_save_unchanged wd sOk
    date q p pr store (fetch_data_none_of_quote_none date q p pr hq)⟩

/-- C10 (witness): the close-dash statement applied to a response with a
numeric open cell and a dash close cell, on an empty store. -/
theorem claim10_witness :
    processQuote qDashClose = none ∧
    fetch_and_save 0 true "2025-01-02" qDashClose pGood prGood [] = [] := by
  have hv : parseFloat? (stripCommas "17,700") =
      some (partsVal ⟨false, ['1', '7', '7', '0', '0'], []⟩) := by
    have hp : parseParts? (stripCommas "17,700").data =
        some ⟨false, ['1', '7', '7', '0', '0'], []⟩ := by decide
    simp [parseFloat?, hp]
  have h := claim10_close_dash_aborts qDashClose
      ["臺股期貨", "202501", "17,700", "17,850", "17,600", "-", "x"]
      "17,700" "-" (partsVal ⟨false, ['1', '7', '7', '0', '0'], []⟩)
      (by decide) (by decide) (by decide) hv (by decide)
  exact ⟨h.1, h.2 0 true "2025-01-02" pGood prGood []⟩
